import Mathlib

/-!
# Declaration headers of r3d-rs: `headers/CL/opencl.h` and `headers/cuda_runtime.h`

The two headers contain declarations only.  They are embedded as lists of
declarations in source order; the properties below are computed from those
lists by small functions modelling the C rules they depend on (typedef
resolution, declaration before use, integer ranges, pointer assignment,
member access and natural-alignment layout).
-/

namespace R3dHeaders

/-! ## Declarations -/

/-- A type as it is written in a declaration. -/
inductive CType where
  /-- a typedef name, e.g. `uint32_t` or `cl_uint` -/
  | name (n : String)
  /-- the keyword `int` -/
  | int
  /-- the keyword `float` -/
  | float
  /-- the keyword `double` -/
  | double
  /-- the keyword `void` -/
  | void
  /-- a struct type named by its tag: `struct tag` -/
  | struct (tag : String)
  /-- an enumeration named by its tag: `enum tag` -/
  | enum (tag : String)
  /-- a pointer: `t *` -/
  | ptr (t : CType)
  deriving DecidableEq

/-- One member of a struct: its type and its name. -/
structure Field where
  ty : CType
  name : String
  deriving DecidableEq

/-- A top-level declaration of a header. -/
inductive Decl where
  /-- the declaration `typedef ty name;` -/
  | typedef (ty : CType) (name : String)
  /-- the declaration `struct tag { fields };`, with `tdName` the typedef name
  when it is written `typedef struct tag { fields } tdName;` -/
  | structDef (tag : String) (fields : List Field) (tdName : Option String)
  /-- the declaration `enum tag { enumerators };` with their explicit values -/
  | enumDef (tag : String) (enumerators : List (String × Int))
  deriving DecidableEq

/-! ## The two headers -/

/-- The declarations of `headers/CL/opencl.h`, lines 5 to 53, in source order. -/
def opencl_h : List Decl :=
  [ .typedef (.name "int8_t") "cl_char",
    .typedef (.name "uint8_t") "cl_uchar",
    .typedef (.name "int16_t") "cl_short",
    .typedef (.name "uint16_t") "cl_ushort",
    .typedef (.name "int32_t") "cl_int",
    .typedef (.name "uint32_t") "cl_uint",
    .typedef (.name "int64_t") "cl_long",
    .typedef (.name "uint64_t") "cl_ulong",
    .typedef (.name "uint16_t") "cl_half",
    .typedef .float "cl_float",
    .typedef .double "cl_double",
    .typedef (.ptr (.struct "_cl_platform_id")) "cl_platform_id",
    .typedef (.ptr (.struct "_cl_device_id")) "cl_device_id",
    .typedef (.ptr (.struct "_cl_context")) "cl_context",
    .typedef (.ptr (.struct "_cl_command_queue")) "cl_command_queue",
    .typedef (.ptr (.struct "_cl_mem")) "cl_mem",
    .typedef (.ptr (.struct "_cl_program")) "cl_program",
    .typedef (.ptr (.struct "_cl_kernel")) "cl_kernel",
    .typedef (.ptr (.struct "_cl_event")) "cl_event",
    .typedef (.ptr (.struct "_cl_sampler")) "cl_sampler",
    .typedef (.name "intptr_t") "cl_context_properties",
    .typedef (.name "cl_uint") "cl_bool",
    .typedef (.name "cl_ulong") "cl_bitfield",
    .typedef (.name "cl_ulong") "cl_properties",
    .typedef (.name "cl_bitfield") "cl_device_type",
    .typedef (.name "cl_uint") "cl_platform_info",
    .typedef (.name "cl_uint") "cl_device_info",
    .typedef (.name "cl_bitfield") "cl_device_fp_config",
    .typedef (.name "cl_uint") "cl_device_mem_cache_type",
    .typedef (.name "cl_uint") "cl_device_local_mem_type",
    .typedef (.name "cl_bitfield") "cl_device_exec_capabilities",
    .typedef (.name "cl_bitfield") "cl_command_queue_properties",
    .typedef (.name "cl_uint") "cl_addressing_mode",
    .typedef (.name "cl_bitfield") "cl_mem_flags",
    .typedef (.name "cl_uint") "cl_context_info",
    .typedef (.name "cl_uint") "cl_image_info",
    .typedef (.name "cl_uint") "cl_program_info",
    .typedef (.name "cl_uint") "cl_program_build_info",
    .typedef (.name "cl_uint") "cl_filter_mode",
    .typedef (.name "cl_uint") "cl_kernel_work_group_info",
    .typedef (.name "cl_bitfield") "cl_map_flags",
    .typedef (.name "cl_uint") "cl_mem_info",
    .typedef (.name "cl_uint") "cl_channel_order",
    .typedef (.name "cl_uint") "cl_channel_type",
    .structDef "_cl_image_format"
      [ ⟨.name "cl_channel_order", "image_channel_order"⟩,
        ⟨.name "cl_channel_type", "image_channel_data_type"⟩ ]
      (some "cl_image_format") ]

/-- The declarations of `headers/cuda_runtime.h`, in source order. -/
def cuda_runtime_h : List Decl :=
  [ .enumDef "cudaError" [("_", 0)],
    .enumDef "cudaChannelFormatKind" [("__", 0)],
    .typedef (.enum "cudaError") "cudaError_t",
    .typedef (.ptr (.struct "CUstream_st")) "cudaStream_t",
    .typedef (.ptr (.struct "cudaArray")) "cudaArray_t",
    .typedef (.ptr (.struct "cudaMipmappedArray")) "cudaMipmappedArray_t",
    .structDef "cudaPitchedPtr"
      [ ⟨.ptr .void, "ptr"⟩,
        ⟨.name "size_t", "pitch"⟩,
        ⟨.name "size_t", "xsize"⟩,
        ⟨.name "size_t", "ysize"⟩ ]
      none,
    .structDef "cudaExtent"
      [ ⟨.name "size_t", "width"⟩,
        ⟨.name "size_t", "height"⟩,
        ⟨.name "size_t", "depth"⟩ ]
      none,
    .structDef "cudaChannelFormatDesc"
      [ ⟨.int, "x"⟩,
        ⟨.int, "y"⟩,
        ⟨.int, "z"⟩,
        ⟨.int, "w"⟩,
        ⟨.enum "cudaChannelFormatKind", "f"⟩ ]
      none ]

/-! ## Typedef resolution -/

/-- The typedef names one declaration introduces, each with the type it
stands for. -/
def Decl.typedefs : Decl → List (String × CType)
  | .typedef ty n => [(n, ty)]
  | .structDef tag _ (some a) => [(a, .struct tag)]
  | .structDef _ _ none => []
  | .enumDef _ _ => []

/-- The typedef table of a list of declarations. -/
def typedefTable (ds : List Decl) : List (String × CType) :=
  ds.flatMap Decl.typedefs

/-- Follow the typedef chain from `t` through `tds`, at most `fuel` lookups
deep.  A name with no entry in `tds` is a base name (it comes from a system
header) and is returned as it is; `none` means the fuel ran out. -/
def resolve (tds : List (String × CType)) : Nat → CType → Option CType
  | 0, _ => none
  | fuel + 1, .name n =>
    match tds.lookup n with
    | some t => resolve tds fuel t
    | none => some (.name n)
  | _ + 1, t => some t

/-- Resolution with the fuel a table can need at most: one lookup per entry
of the table and one more to reach the base. -/
def resolveIn (ds : List Decl) (t : CType) : Option CType :=
  resolve (typedefTable ds) ((typedefTable ds).length + 1) t

/-! ## Scalar kinds and the target platform -/

/-- What the target platform fixes and the headers do not: the sizes, in
bytes, of a pointer, of `size_t`, of `int` and of an enumeration, and whether
the integer type behind an enumeration is signed. -/
structure Platform where
  ptrBytes : Nat
  sizeBytes : Nat
  intBytes : Nat
  enumBytes : Nat
  enumSigned : Bool
  deriving DecidableEq

/-- The kind of a scalar: an integer of a signedness and a width in bits, a
floating-point number of a width in bits, or an address of a width in bits. -/
inductive Scalar where
  | integer (signed : Bool) (bits : Nat)
  | floating (bits : Nat)
  | address (bits : Nat)
  deriving DecidableEq

/-- The scalar kind of a type that is not a typedef name of the headers.
The names of `<stdint.h>` and `<stddef.h>` have their standard meaning:
`intN_t` and `uintN_t` are exactly `N` bits wide on every platform, `intptr_t`
is a signed integer as wide as a pointer, `size_t` is unsigned.  `float` and
`double` are the 32-bit and 64-bit IEEE 754 formats.  A struct and `void`
are not scalars. -/
def baseScalar (P : Platform) : CType → Option Scalar
  | .name "int8_t" => some (.integer true 8)
  | .name "uint8_t" => some (.integer false 8)
  | .name "int16_t" => some (.integer true 16)
  | .name "uint16_t" => some (.integer false 16)
  | .name "int32_t" => some (.integer true 32)
  | .name "uint32_t" => some (.integer false 32)
  | .name "int64_t" => some (.integer true 64)
  | .name "uint64_t" => some (.integer false 64)
  | .name "intptr_t" => some (.integer true (8 * P.ptrBytes))
  | .name "size_t" => some (.integer false (8 * P.sizeBytes))
  | .name _ => none
  | .int => some (.integer true (8 * P.intBytes))
  | .float => some (.floating 32)
  | .double => some (.floating 64)
  | .enum _ => some (.integer P.enumSigned (8 * P.enumBytes))
  | .ptr _ => some (.address (8 * P.ptrBytes))
  | .struct _ => none
  | .void => none

/-- The scalar kind of a type used in the header `ds` on platform `P`. -/
def scalarOf (P : Platform) (ds : List Decl) (t : CType) : Option Scalar :=
  (resolveIn ds t).bind (baseScalar P)

/-- Width in bits of a scalar kind. -/
def Scalar.bits : Scalar → Nat
  | .integer _ b => b
  | .floating b => b
  | .address b => b

/-- Size in bytes of a scalar kind. -/
def Scalar.bytes (s : Scalar) : Nat := s.bits / 8

/-- The integer values a scalar kind represents: `0 .. 2^b - 1` for an
unsigned integer and for an address of `b` bits, `-2^b/2 .. 2^b/2 - 1` for a
signed integer in two's complement.  Floating-point kinds hold no integer
range here. -/
def Scalar.representable : Scalar → Int → Bool
  | .integer false b, v => decide (0 ≤ v ∧ v < 2 ^ b)
  | .integer true b, v => decide (-(2 ^ b) ≤ 2 * v ∧ 2 * v < 2 ^ b)
  | .address b, v => decide (0 ≤ v ∧ v < 2 ^ b)
  | .floating _, _ => false

/-- A 64-bit platform with 4-byte `int` and enumerations (LP64 and LLP64). -/
def platform64 : Platform :=
  { ptrBytes := 8, sizeBytes := 8, intBytes := 4, enumBytes := 4, enumSigned := false }

/-- A 32-bit platform with 4-byte `int` and enumerations (ILP32). -/
def platform32 : Platform :=
  { ptrBytes := 4, sizeBytes := 4, intBytes := 4, enumBytes := 4, enumSigned := true }

/-- Whether the integer `v` is a value of the alias `a` of `opencl.h`. -/
def accepts (P : Platform) (a : String) (v : Int) : Bool :=
  match scalarOf P opencl_h (.name a) with
  | some s => s.representable v
  | none => false

/-! ## Handles -/

/-- The handles a header declares: every `typedef struct tag * name;`, as the
pair of the handle name and the tag it points to. -/
def handlesOf (ds : List Decl) : List (String × String) :=
  ds.filterMap fun d =>
    match d with
    | .typedef (.ptr (.struct tag)) n => some (n, tag)
    | _ => none

/-- The structs a header defines with a member list: tag and members. -/
def structDefs (ds : List Decl) : List (String × List Field) :=
  ds.filterMap fun d =>
    match d with
    | .structDef tag fields _ => some (tag, fields)
    | _ => none

/-- The enumerations a header defines: tag and enumerators. -/
def enumDefs (ds : List Decl) : List (String × List (String × Int)) :=
  ds.filterMap fun d =>
    match d with
    | .enumDef tag es => some (tag, es)
    | _ => none

/-- Both headers in one translation unit. -/
def bothHeaders : List Decl := opencl_h ++ cuda_runtime_h

/-- The typedef names of `ds` that stand for a pointer type, each with the
type it is declared as. -/
def pointerAliases (ds : List Decl) : List (String × CType) :=
  (typedefTable ds).filter fun e =>
    match resolveIn ds e.2 with
    | some (.ptr _) => true
    | _ => false

/-- Simple assignment `dst = src` between two types without a cast, by the
constraints of C: two pointers need compatible pointees unless one of them
points to `void`; two struct types with different tags are not compatible;
a pointer and a non-pointer do not mix; the remaining pairs need the same
type or two arithmetic types. -/
def assignable (ds : List Decl) (dst src : CType) : Bool :=
  match resolveIn ds dst, resolveIn ds src with
  | some (.ptr a), some (.ptr b) =>
    a == .void || b == .void || (resolveIn ds a).isSome && resolveIn ds a == resolveIn ds b
  | some (.ptr _), some _ => false
  | some _, some (.ptr _) => false
  | some (.struct a), some (.struct b) => a == b
  | some (.struct _), some _ => false
  | some _, some (.struct _) => false
  | some .void, _ => false
  | _, some .void => false
  | some _, some _ => true
  | _, _ => false

/-! ## Struct objects -/

/-- The value of a struct object: for each member, in order, its name and the
integer stored in it. -/
abbrev Obj := List (String × Int)

/-- Conversion of an integer to a scalar kind when it is stored: reduction
modulo `2^b`, into the unsigned range or into the two's complement range. -/
def Scalar.convert : Scalar → Int → Int
  | .integer false b, v => v % 2 ^ b
  | .integer true b, v => (v + 2 ^ b / 2) % 2 ^ b - 2 ^ b / 2
  | .address b, v => v % 2 ^ b
  | .floating _, v => v

/-- The value a member of type `t` holds after `v` is stored in it. -/
def storeValue (P : Platform) (ds : List Decl) (t : CType) (v : Int) : Int :=
  match scalarOf P ds t with
  | some s => s.convert v
  | none => v

/-- Whether `v` is in the range of the type `t`. -/
def inRange (P : Platform) (ds : List Decl) (t : CType) (v : Int) : Bool :=
  match scalarOf P ds t with
  | some s => s.representable v
  | none => false

/-- Construct a struct object, member by member, from the values `init`
gives by member name (a designated initializer). -/
def construct (P : Platform) (ds : List Decl) (fields : List Field)
    (init : String → Int) : Obj :=
  fields.map fun f => (f.name, storeValue P ds f.ty (init f.name))

/-- Read the member `n` of a struct object. -/
def readField (o : Obj) (n : String) : Option Int :=
  o.lookup n

/-- Store `v` in the member `n` (of declared type `t`) of a struct object. -/
def writeField (P : Platform) (ds : List Decl) (o : Obj) (n : String) (t : CType)
    (v : Int) : Obj :=
  o.map fun e => if e.1 = n then (e.1, storeValue P ds t v) else e

/-! ## Declaration before use -/

/-- The typedef names of the system header `<stdint.h>` that `opencl.h`
refers to. -/
def stdint_h : List String :=
  ["int8_t", "uint8_t", "int16_t", "uint16_t", "int32_t", "uint32_t",
   "int64_t", "uint64_t", "intptr_t"]

/-- The typedef names a type mentions. -/
def CType.typeNames : CType → List String
  | .name n => [n]
  | .ptr t => t.typeNames
  | _ => []

/-- The typedef names a declaration mentions. -/
def Decl.uses : Decl → List String
  | .typedef ty _ => ty.typeNames
  | .structDef _ fields _ => fields.flatMap fun f => f.ty.typeNames
  | .enumDef _ _ => []

/-- The typedef names a declaration introduces. -/
def Decl.declares (d : Decl) : List String :=
  d.typedefs.map Prod.fst

/-- The type names used by `ds` at a point where they are neither in `known`
nor declared by an earlier declaration of `ds`, in order of use. -/
def undeclared (known : List String) : List Decl → List String
  | [] => []
  | d :: ds => d.uses.filter (fun n => !known.contains n) ++ undeclared (d.declares ++ known) ds

/-- The names visited when the typedef chain is followed from the name `n`,
`n` itself left out. -/
def chain (tds : List (String × CType)) : Nat → String → List String
  | 0, _ => []
  | fuel + 1, n =>
    match tds.lookup n with
    | some (.name m) => m :: chain tds fuel m
    | _ => []

/-- The aliases of `ds` whose typedef chain passes through the name `b`. -/
def derivedFrom (ds : List Decl) (b : String) : List String :=
  ((typedefTable ds).map Prod.fst).filter fun a =>
    (chain (typedefTable ds) ((typedefTable ds).length + 1) a).contains b

/-- The aliases of `ds` that are declared as another alias of `ds`. -/
def derivedAliases (ds : List Decl) : List String :=
  ds.filterMap fun d =>
    match d with
    | .typedef (.name n) a => if ((typedefTable ds).lookup n).isSome then some a else none
    | _ => none

/-- The aliases of `ds` that are neither a handle nor a struct. -/
def scalarAliases (ds : List Decl) : List String :=
  ds.filterMap fun d =>
    match d with
    | .typedef ty a =>
      match resolveIn ds ty with
      | some (.ptr _) => none
      | some (.struct _) => none
      | some _ => some a
      | none => none
    | _ => none

/-- Whether the scalar kind of a base type is the same on every platform. -/
def platformFree : CType → Bool
  | .name n => ["int8_t", "uint8_t", "int16_t", "uint16_t", "int32_t", "uint32_t",
      "int64_t", "uint64_t"].contains n
  | .float => true
  | .double => true
  | _ => false

/-! ## Layout under natural alignment -/

/-- Round `off` up to the next multiple of `a`. -/
def alignUp (off a : Nat) : Nat :=
  if off % a = 0 then off else off + (a - off % a)

/-- The offsets of members of the given sizes laid out from `off`, each
aligned to its own size. -/
def offsetsFrom (off : Nat) : List Nat → List Nat
  | [] => []
  | s :: ss => alignUp off s :: offsetsFrom (alignUp off s + s) ss

/-- The offset just past the last member. -/
def endFrom (off : Nat) : List Nat → Nat
  | [] => off
  | s :: ss => endFrom (alignUp off s + s) ss

/-- The size of a struct: the end of its last member rounded up to the
largest member alignment. -/
def structSize (sizes : List Nat) : Nat :=
  alignUp (endFrom 0 sizes) (sizes.foldl max 0)

/-- The sizes in bytes of the members of the struct `tag` of `ds`. -/
def fieldSizes (P : Platform) (ds : List Decl) (tag : String) : List Nat :=
  match (structDefs ds).lookup tag with
  | some fields => fields.map fun f => ((scalarOf P ds f.ty).map Scalar.bytes).getD 0
  | none => []

/-- The offsets in bytes of the members of the struct `tag` of `ds`. -/
def fieldOffsets (P : Platform) (ds : List Decl) (tag : String) : List Nat :=
  offsetsFrom 0 (fieldSizes P ds tag)

/-- The size in bytes of the struct `tag` of `ds`. -/
def sizeofStruct (P : Platform) (ds : List Decl) (tag : String) : Nat :=
  structSize (fieldSizes P ds tag)

/-! ## Scalar aliases -/

/-- C1: each base scalar alias of `opencl.h` has, on every platform, the
width and signedness of the fixed-width name it is declared as, and accepts
exactly the values of that kind: `cl_uchar` accepts `v` iff `0 ≤ v ≤ 255`,
and likewise for the other eight. -/
theorem base_alias_kinds (P : Platform) (v : Int) :
    ((typedefTable opencl_h).lookup "cl_char" = some (.name "int8_t") ∧
      scalarOf P opencl_h (.name "cl_char") = some (.integer true 8) ∧
      (accepts P "cl_char" v = true ↔ -128 ≤ v ∧ v ≤ 127)) ∧
    ((typedefTable opencl_h).lookup "cl_uchar" = some (.name "uint8_t") ∧
      scalarOf P opencl_h (.name "cl_uchar") = some (.integer false 8) ∧
      (accepts P "cl_uchar" v = true ↔ 0 ≤ v ∧ v ≤ 255)) ∧
    ((typedefTable opencl_h).lookup "cl_short" = some (.name "int16_t") ∧
      scalarOf P opencl_h (.name "cl_short") = some (.integer true 16) ∧
      (accepts P "cl_short" v = true ↔ -32768 ≤ v ∧ v ≤ 32767)) ∧
    ((typedefTable opencl_h).lookup "cl_ushort" = some (.name "uint16_t") ∧
      scalarOf P opencl_h (.name "cl_ushort") = some (.integer false 16) ∧
      (accepts P "cl_ushort" v = true ↔ 0 ≤ v ∧ v ≤ 65535)) ∧
    ((typedefTable opencl_h).lookup "cl_int" = some (.name "int32_t") ∧
      scalarOf P opencl_h (.name "cl_int") = some (.integer true 32) ∧
      (accepts P "cl_int" v = true ↔ -2147483648 ≤ v ∧ v ≤ 2147483647)) ∧
    ((typedefTable opencl_h).lookup "cl_uint" = some (.name "uint32_t") ∧
      scalarOf P opencl_h (.name "cl_uint") = some (.integer false 32) ∧
      (accepts P "cl_uint" v = true ↔ 0 ≤ v ∧ v ≤ 4294967295)) ∧
    ((typedefTable opencl_h).lookup "cl_long" = some (.name "int64_t") ∧
      scalarOf P opencl_h (.name "cl_long") = some (.integer true 64) ∧
      (accepts P "cl_long" v = true ↔
        -9223372036854775808 ≤ v ∧ v ≤ 9223372036854775807)) ∧
    ((typedefTable opencl_h).lookup "cl_ulong" = some (.name "uint64_t") ∧
      scalarOf P opencl_h (.name "cl_ulong") = some (.integer false 64) ∧
      (accepts P "cl_ulong" v = true ↔ 0 ≤ v ∧ v ≤ 18446744073709551615)) ∧
    ((typedefTable opencl_h).lookup "cl_half" = some (.name "uint16_t") ∧
      scalarOf P opencl_h (.name "cl_half") = some (.integer false 16) ∧
      (accepts P "cl_half" v = true ↔ 0 ≤ v ∧ v ≤ 65535)) := by
  have h1 : scalarOf P opencl_h (.name "cl_char") = some (.integer true 8) := rfl
  have h2 : scalarOf P opencl_h (.name "cl_uchar") = some (.integer false 8) := rfl
  have h3 : scalarOf P opencl_h (.name "cl_short") = some (.integer true 16) := rfl
  have h4 : scalarOf P opencl_h (.name "cl_ushort") = some (.integer false 16) := rfl
  have h5 : scalarOf P opencl_h (.name "cl_int") = some (.integer true 32) := rfl
  have h6 : scalarOf P opencl_h (.name "cl_uint") = some (.integer false 32) := rfl
  have h7 : scalarOf P opencl_h (.name "cl_long") = some (.integer true 64) := rfl
  have h8 : scalarOf P opencl_h (.name "cl_ulong") = some (.integer false 64) := rfl
  have h9 : scalarOf P opencl_h (.name "cl_half") = some (.integer false 16) := rfl
  refine ⟨⟨by decide, h1, ?_⟩, ⟨by decide, h2, ?_⟩, ⟨by decide, h3, ?_⟩, ⟨by decide, h4, ?_⟩,
    ⟨by decide, h5, ?_⟩, ⟨by decide, h6, ?_⟩, ⟨by decide, h7, ?_⟩, ⟨by decide, h8, ?_⟩,
    ⟨by decide, h9, ?_⟩⟩
  · simp only [accepts, h1, Scalar.representable, decide_eq_true_eq]; norm_num; omega
  · simp only [accepts, h2, Scalar.representable, decide_eq_true_eq]; norm_num; omega
  · simp only [accepts, h3, Scalar.representable, decide_eq_true_eq]; norm_num; omega
  · simp only [accepts, h4, Scalar.representable, decide_eq_true_eq]; norm_num; omega
  · simp only [accepts, h5, Scalar.representable, decide_eq_true_eq]; norm_num; omega
  · simp only [accepts, h6, Scalar.representable, decide_eq_true_eq]; norm_num; omega
  · simp only [accepts, h7, Scalar.representable, decide_eq_true_eq]; norm_num; omega
  · simp only [accepts, h8, Scalar.representable, decide_eq_true_eq]; norm_num; omega
  · simp only [accepts, h9, Scalar.representable, decide_eq_true_eq]; norm_num; omega

/-! ## Handles -/

/-- C2: the nine OpenCL handles and the three CUDA handles are each declared
as a pointer to a struct tag of their own; the tags are pairwise different
and none of them is given a member list; the twelve are the only aliases of
a pointer type, so none is an alias of another handle or of `void *`; and
no handle can be assigned to a handle of another name without a cast. -/
theorem handles_distinct :
    handlesOf opencl_h =
      [("cl_platform_id", "_cl_platform_id"), ("cl_device_id", "_cl_device_id"),
       ("cl_context", "_cl_context"), ("cl_command_queue", "_cl_command_queue"),
       ("cl_mem", "_cl_mem"), ("cl_program", "_cl_program"), ("cl_kernel", "_cl_kernel"),
       ("cl_event", "_cl_event"), ("cl_sampler", "_cl_sampler")] ∧
    handlesOf cuda_runtime_h =
      [("cudaStream_t", "CUstream_st"), ("cudaArray_t", "cudaArray"),
       ("cudaMipmappedArray_t", "cudaMipmappedArray")] ∧
    ((handlesOf bothHeaders).map Prod.fst).Nodup ∧
    ((handlesOf bothHeaders).map Prod.snd).Nodup ∧
    (∀ h ∈ handlesOf bothHeaders, (structDefs bothHeaders).lookup h.2 = none) ∧
    pointerAliases bothHeaders =
      (handlesOf bothHeaders).map (fun h => (h.1, CType.ptr (.struct h.2))) ∧
    (∀ a ∈ handlesOf bothHeaders, ∀ b ∈ handlesOf bothHeaders,
      assignable bothHeaders (.name a.1) (.name b.1) = true ↔ a.1 = b.1) := by
  refine ⟨by decide, by decide, by decide, by decide, by decide, by decide, ?_⟩
  decide

/-! ## Plain data structs -/

/-- C3: the structs declared with members are exactly `_cl_image_format`
(named `cl_image_format`) in `opencl.h` and `cudaPitchedPtr`, `cudaExtent`,
`cudaChannelFormatDesc` in `cuda_runtime.h`, with exactly the members of the
reference layout in its order; both members of `cl_image_format` are
unsigned 32-bit integers on every platform. -/
theorem struct_fields_reference (P : Platform) :
    structDefs opencl_h =
      [("_cl_image_format",
        [⟨.name "cl_channel_order", "image_channel_order"⟩,
         ⟨.name "cl_channel_type", "image_channel_data_type"⟩])] ∧
    (typedefTable opencl_h).lookup "cl_image_format" = some (.struct "_cl_image_format") ∧
    scalarOf P opencl_h (.name "cl_channel_order") = some (.integer false 32) ∧
    scalarOf P opencl_h (.name "cl_channel_type") = some (.integer false 32) ∧
    structDefs cuda_runtime_h =
      [("cudaPitchedPtr",
        [⟨.ptr .void, "ptr"⟩, ⟨.name "size_t", "pitch"⟩, ⟨.name "size_t", "xsize"⟩,
         ⟨.name "size_t", "ysize"⟩]),
       ("cudaExtent",
        [⟨.name "size_t", "width"⟩, ⟨.name "size_t", "height"⟩, ⟨.name "size_t", "depth"⟩]),
       ("cudaChannelFormatDesc",
        [⟨.int, "x"⟩, ⟨.int, "y"⟩, ⟨.int, "z"⟩, ⟨.int, "w"⟩,
         ⟨.enum "cudaChannelFormatKind", "f"⟩])] ∧
    scalarOf P cuda_runtime_h (.ptr .void) = some (.address (8 * P.ptrBytes)) ∧
    scalarOf P cuda_runtime_h (.name "size_t") = some (.integer false (8 * P.sizeBytes)) ∧
    scalarOf P cuda_runtime_h .int = some (.integer true (8 * P.intBytes)) ∧
    (enumDefs cuda_runtime_h).lookup "cudaChannelFormatKind" = some [("__", 0)] ∧
    (structDefs bothHeaders).map Prod.fst =
      ["_cl_image_format", "cudaPitchedPtr", "cudaExtent", "cudaChannelFormatDesc"] :=
  ⟨by decide, by decide, rfl, rfl, by decide, rfl, rfl, rfl, by decide, by decide⟩

/-! ## Enumerations -/

/-- C6: `cuda_runtime.h` declares exactly the two enumerations `cudaError`
and `cudaChannelFormatKind`, each with one enumerator of value `0`; the two
enumerators (`_` and `__`) have different names, which are not typedef names
either; and `cudaError_t` is `enum cudaError`. -/
theorem cuda_enums_placeholder :
    enumDefs cuda_runtime_h =
      [("cudaError", [("_", 0)]), ("cudaChannelFormatKind", [("__", 0)])] ∧
    (∀ e ∈ enumDefs cuda_runtime_h, e.2.length = 1 ∧ ∀ c ∈ e.2, c.2 = 0) ∧
    ((enumDefs cuda_runtime_h).flatMap fun e => e.2.map Prod.fst).Nodup ∧
    (∀ c ∈ (enumDefs cuda_runtime_h).flatMap fun e => e.2.map Prod.fst,
      (typedefTable cuda_runtime_h).lookup c = none) ∧
    ((enumDefs cuda_runtime_h).map Prod.fst).Nodup ∧
    (typedefTable cuda_runtime_h).lookup "cudaError_t" = some (.enum "cudaError") ∧
    resolveIn cuda_runtime_h (.name "cudaError_t") =
      resolveIn cuda_runtime_h (.enum "cudaError") ∧
    assignable cuda_runtime_h (.name "cudaError_t") (.enum "cudaError") = true := by
  refine ⟨by decide, by decide, by decide, by decide, by decide, by decide, by decide, by decide⟩

/-! ## Struct objects: construction, reading and writing -/

/-- A value in the range of a scalar kind is stored unchanged. -/
theorem convert_of_representable (s : Scalar) (v : Int) (h : s.representable v = true) :
    s.convert v = v := by
  cases s with
  | integer sg b =>
    have hM : (0 : Int) < 2 ^ b := by positivity
    cases sg with
    | false =>
      simp only [Scalar.representable, decide_eq_true_eq] at h
      exact Int.emod_eq_of_lt h.1 h.2
    | true =>
      simp only [Scalar.representable, decide_eq_true_eq] at h
      simp only [Scalar.convert]
      generalize (2 : Int) ^ b = M at h hM ⊢
      rw [Int.emod_eq_of_lt (by omega) (by omega)]
      omega
  | floating b => rfl
  | address b =>
    simp only [Scalar.representable, decide_eq_true_eq] at h
    exact Int.emod_eq_of_lt h.1 h.2

/-- A value in the range of a member's type is stored unchanged. -/
theorem storeValue_of_inRange (P : Platform) (ds : List Decl) (t : CType) (v : Int)
    (h : inRange P ds t v = true) : storeValue P ds t v = v := by
  unfold inRange at h
  unfold storeValue
  cases hs : scalarOf P ds t with
  | none => rfl
  | some s =>
    rw [hs] at h
    exact convert_of_representable s v h

/-- Reading a member of a freshly built object finds the value computed for
that member, when no two members share a name. -/
theorem lookup_map_of_nodup (g : Field → Int) (fields : List Field)
    (hnd : (fields.map Field.name).Nodup) (f : Field) (hf : f ∈ fields) :
    (fields.map fun x => (x.name, g x)).lookup f.name = some (g f) := by
  induction fields with
  | nil => cases hf
  | cons x xs ih =>
    rw [List.map_cons, List.nodup_cons] at hnd
    rw [List.map_cons, List.lookup_cons]
    rcases List.mem_cons.mp hf with rfl | hmem
    · simp
    · have hne : f.name ≠ x.name := by
        intro heq
        exact hnd.1 (heq ▸ List.mem_map_of_mem Field.name hmem)
      have hb : (f.name == x.name) = false := by simpa using hne
      rw [hb]
      exact ih hnd.2 hmem

/-- Writing the member `n` does not change what another member `m` reads. -/
theorem lookup_write_other (o : Obj) (n m : String) (x : Int) (h : m ≠ n) :
    (o.map fun e => if e.1 = n then (e.1, x) else e).lookup m = o.lookup m := by
  induction o with
  | nil => rfl
  | cons e es ih =>
    rw [List.map_cons, List.lookup_cons, List.lookup_cons, ih]
    by_cases he : e.1 = n
    · have hb : (m == e.1) = false := by simpa [he] using h
      simp [he, hb]
      rw [← he, hb]
    · simp [he]

/-- Writing the member `n` makes it read the stored value, when the object
has such a member. -/
theorem lookup_write_same (o : Obj) (n : String) (x : Int) (h : (o.lookup n).isSome) :
    (o.map fun e => if e.1 = n then (e.1, x) else e).lookup n = some x := by
  induction o with
  | nil => simp at h
  | cons e es ih =>
    rw [List.map_cons, List.lookup_cons]
    rw [List.lookup_cons] at h
    by_cases he : e.1 = n
    · simp [he]
    · have hb : (n == e.1) = false := by simpa using fun h' => he h'.symm
      rw [hb] at h
      simp only [he, if_false, hb]
      exact ih h

/-- The members of each of the four structs have pairwise different names. -/
theorem structDefs_nodup (ds : List Decl) (hds : ds = opencl_h ∨ ds = cuda_runtime_h)
    (tag : String) (fields : List Field) (hs : (tag, fields) ∈ structDefs ds) :
    (fields.map Field.name).Nodup := by
  have key : ∀ d ∈ [opencl_h, cuda_runtime_h], ∀ e ∈ structDefs d,
      (e.2.map Field.name).Nodup := by decide
  rcases hds with rfl | rfl
  · exact key _ (by simp) _ hs
  · exact key _ (by simp) _ hs

/-- C4: for each of the four plain data structs, on every platform: an
object constructed from member values that are each in the range of the
member's type reads back, member by member, exactly the values given;
a member written with a value in its range reads back that value; and
writing one member leaves what every other member reads unchanged. -/
theorem struct_roundtrip (P : Platform) (ds : List Decl) (tag : String)
    (fields : List Field) (init : String → Int)
    (hds : ds = opencl_h ∨ ds = cuda_runtime_h)
    (hs : (tag, fields) ∈ structDefs ds)
    (hr : ∀ f ∈ fields, inRange P ds f.ty (init f.name) = true) :
    (∀ f ∈ fields, readField (construct P ds fields init) f.name = some (init f.name)) ∧
    (∀ f ∈ fields, ∀ v, inRange P ds f.ty v = true →
      readField (writeField P ds (construct P ds fields init) f.name f.ty v) f.name
        = some v) ∧
    (∀ f ∈ fields, ∀ g ∈ fields, g.name ≠ f.name → ∀ v,
      readField (writeField P ds (construct P ds fields init) f.name f.ty v) g.name
        = some (init g.name)) := by
  have hnd := structDefs_nodup ds hds tag fields hs
  have hread : ∀ f ∈ fields,
      readField (construct P ds fields init) f.name = some (init f.name) := by
    intro f hf
    unfold readField construct
    rw [lookup_map_of_nodup (fun x => storeValue P ds x.ty (init x.name)) fields hnd f hf]
    rw [storeValue_of_inRange P ds f.ty _ (hr f hf)]
  refine ⟨hread, ?_, ?_⟩
  · intro f hf v hv
    have hsome : ((construct P ds fields init).lookup f.name).isSome := by
      have := hread f hf
      unfold readField at this
      rw [this]; rfl
    unfold readField writeField
    rw [lookup_write_same _ _ _ hsome, storeValue_of_inRange P ds f.ty v hv]
  · intro f _ g hg hne v
    unfold readField writeField
    rw [lookup_write_other _ _ _ _ hne]
    exact hread g hg

/-- Witness of C4: a `cl_image_format` built on a 64-bit platform from the
channel order `0x10B5` and the channel data type `0x10DE`. -/
theorem struct_roundtrip_witness :
    (("_cl_image_format",
        [Field.mk (.name "cl_channel_order") "image_channel_order",
         Field.mk (.name "cl_channel_type") "image_channel_data_type"])
      ∈ structDefs opencl_h) ∧
    (∀ f ∈ [Field.mk (.name "cl_channel_order") "image_channel_order",
         Field.mk (.name "cl_channel_type") "image_channel_data_type"],
      inRange platform64 opencl_h f.ty
        ((fun n => if n = "image_channel_order" then 0x10B5 else 0x10DE) f.name) = true) ∧
    readField (construct platform64 opencl_h
        [Field.mk (.name "cl_channel_order") "image_channel_order",
         Field.mk (.name "cl_channel_type") "image_channel_data_type"]
        (fun n => if n = "image_channel_order" then 0x10B5 else 0x10DE))
      "image_channel_data_type" = some 0x10DE :=
  ⟨by decide, by decide,
    (struct_roundtrip platform64 opencl_h "_cl_image_format"
      [Field.mk (.name "cl_channel_order") "image_channel_order",
       Field.mk (.name "cl_channel_type") "image_channel_data_type"]
      (fun n => if n = "image_channel_order" then 0x10B5 else 0x10DE)
      (Or.inl rfl) (by decide) (by decide)).1
      (Field.mk (.name "cl_channel_type") "image_channel_data_type") (by decide)⟩

/-! ## Fixed width of the scalar aliases -/

/-- A base type that `platformFree` accepts has one scalar kind, the same on
every platform. -/
theorem baseScalar_of_platformFree (t : CType) (h : platformFree t = true) :
    ∃ s, ∀ P, baseScalar P t = some s := by
  cases t with
  | name n =>
    simp only [platformFree, List.contains_eq_any_beq, List.any_cons, List.any_nil,
      Bool.or_false, Bool.or_eq_true, beq_iff_eq] at h
    rcases h with h | h | h | h | h | h | h | h <;> subst h <;> exact ⟨_, fun _ => rfl⟩
  | float => exact ⟨_, fun _ => rfl⟩
  | double => exact ⟨_, fun _ => rfl⟩
  | int => simp [platformFree] at h
  | void => simp [platformFree] at h
  | struct tag => simp [platformFree] at h
  | enum tag => simp [platformFree] at h
  | ptr t => simp [platformFree] at h

/-- C5, as the code has it: every scalar alias of `opencl.h` other than
`cl_context_properties` has one width and signedness on every platform;
`cl_context_properties`, declared as `intptr_t`, is a signed integer as wide
as a pointer of the platform. -/
theorem scalar_aliases_fixed_width_except_context_properties :
    (∀ a ∈ scalarAliases opencl_h, a ≠ "cl_context_properties" →
      ∃ s, ∀ P, scalarOf P opencl_h (.name a) = some s) ∧
    "cl_context_properties" ∈ scalarAliases opencl_h ∧
    (typedefTable opencl_h).lookup "cl_context_properties" = some (.name "intptr_t") ∧
    (∀ P, scalarOf P opencl_h (.name "cl_context_properties")
      = some (.integer true (8 * P.ptrBytes))) := by
  refine ⟨?_, by decide, by decide, fun _ => rfl⟩
  intro a ha hne
  have key : ∀ a ∈ scalarAliases opencl_h, a ≠ "cl_context_properties" →
      (resolveIn opencl_h (.name a)).map platformFree = some true := by decide
  have hk := key a ha hne
  cases hr : resolveIn opencl_h (.name a) with
  | none => rw [hr] at hk; cases hk
  | some t =>
    rw [hr] at hk
    have hpf : platformFree t = true := by simpa using hk
    obtain ⟨s, hs⟩ := baseScalar_of_platformFree t hpf
    refine ⟨s, fun P => ?_⟩
    unfold scalarOf
    rw [hr]
    exact hs P

/-- Witness of the amended C5 at `cl_device_type`, an unsigned 64-bit
integer on every platform. -/
theorem scalar_aliases_fixed_width_witness :
    "cl_device_type" ∈ scalarAliases opencl_h ∧
    "cl_device_type" ≠ "cl_context_properties" ∧
    ∃ s, ∀ P, scalarOf P opencl_h (.name "cl_device_type") = some s :=
  ⟨by decide, by decide,
    scalar_aliases_fixed_width_except_context_properties.1 "cl_device_type"
      (by decide) (by decide)⟩

/-- Counterexample to C5 as stated: `cl_context_properties` is a scalar alias
of `opencl.h`, 32 bits wide on the 32-bit platform and 64 bits wide on the
64-bit one. -/
theorem context_properties_not_fixed_width :
    "cl_context_properties" ∈ scalarAliases opencl_h ∧
    scalarOf platform32 opencl_h (.name "cl_context_properties") = some (.integer true 32) ∧
    scalarOf platform64 opencl_h (.name "cl_context_properties") = some (.integer true 64) ∧
    ¬ (∀ a ∈ scalarAliases opencl_h, ∀ P Q : Platform,
      scalarOf P opencl_h (.name a) = scalarOf Q opencl_h (.name a)) := by
  refine ⟨by decide, by decide, by decide, fun h => ?_⟩
  have h2 := h "cl_context_properties" (by decide) platform32 platform64
  revert h2
  decide

/-! ## Declaration before use -/

/-- A resolution that succeeds still succeeds, with the same result, with
one more unit of fuel. -/
theorem resolve_succ (tds : List (String × CType)) (k : Nat) (t r : CType)
    (h : resolve tds k t = some r) : resolve tds (k + 1) t = some r := by
  induction k generalizing t with
  | zero => simp [resolve] at h
  | succ k ih =>
    cases t with
    | name n =>
      simp only [resolve] at h ⊢
      cases hl : tds.lookup n with
      | none => rw [hl] at h; simpa using h
      | some u => rw [hl] at h; simpa using ih u h
    | int => simpa [resolve] using h
    | float => simpa [resolve] using h
    | double => simpa [resolve] using h
    | void => simpa [resolve] using h
    | struct tag => simpa [resolve] using h
    | enum tag => simpa [resolve] using h
    | ptr u => simpa [resolve] using h

/-- A resolution that succeeds still succeeds with any larger fuel. -/
theorem resolve_mono (tds : List (String × CType)) (k m : Nat) (t r : CType)
    (hkm : k ≤ m) (h : resolve tds k t = some r) : resolve tds m t = some r := by
  induction hkm with
  | refl => exact h
  | step _ ih => exact resolve_succ tds _ t r ih

/-- C8: in `opencl.h` every name a declaration refers to is a name of
`<stdint.h>` or an alias declared on an earlier line, and no alias is
declared twice or redefines a name of `<stdint.h>`; following the typedef
chain from any alias ends within four lookups, and with any larger fuel;
the aliases derived from `cl_uint` are the fifteen listed and resolve to the
unsigned 32-bit integer, those derived from `cl_ulong` are the eight listed
and resolve to the unsigned 64-bit integer, and every alias declared as
another alias is among these. -/
theorem alias_resolution_well_founded (P : Platform) :
    undeclared stdint_h opencl_h = [] ∧
    (∀ n ∈ stdint_h, (typedefTable opencl_h).lookup n = none) ∧
    ((typedefTable opencl_h).map Prod.fst).Nodup ∧
    (∀ fuel, 4 ≤ fuel → ∀ a ∈ (typedefTable opencl_h).map Prod.fst,
      ∃ r, resolve (typedefTable opencl_h) fuel (.name a) = some r ∧
        resolve (typedefTable opencl_h) 1 r = some r) ∧
    derivedFrom opencl_h "cl_uint" =
      ["cl_bool", "cl_platform_info", "cl_device_info", "cl_device_mem_cache_type",
       "cl_device_local_mem_type", "cl_addressing_mode", "cl_context_info",
       "cl_image_info", "cl_program_info", "cl_program_build_info", "cl_filter_mode",
       "cl_kernel_work_group_info", "cl_mem_info", "cl_channel_order",
       "cl_channel_type"] ∧
    derivedFrom opencl_h "cl_ulong" =
      ["cl_bitfield", "cl_properties", "cl_device_type", "cl_device_fp_config",
       "cl_device_exec_capabilities", "cl_command_queue_properties", "cl_mem_flags",
       "cl_map_flags"] ∧
    (∀ a ∈ derivedAliases opencl_h,
      a ∈ derivedFrom opencl_h "cl_uint" ∨ a ∈ derivedFrom opencl_h "cl_ulong") ∧
    (∀ fuel, 4 ≤ fuel → ∀ a ∈ derivedFrom opencl_h "cl_uint",
      resolve (typedefTable opencl_h) fuel (.name a) = some (.name "uint32_t") ∧
      scalarOf P opencl_h (.name a) = some (.integer false 32)) ∧
    (∀ fuel, 4 ≤ fuel → ∀ a ∈ derivedFrom opencl_h "cl_ulong",
      resolve (typedefTable opencl_h) fuel (.name a) = some (.name "uint64_t") ∧
      scalarOf P opencl_h (.name a) = some (.integer false 64)) := by
  have hlen : 4 ≤ (typedefTable opencl_h).length + 1 := by decide
  have hend : ∀ a ∈ (typedefTable opencl_h).map Prod.fst,
      (resolve (typedefTable opencl_h) 4 (.name a)).isSome = true ∧
      (resolve (typedefTable opencl_h) 4 (.name a)).bind (resolve (typedefTable opencl_h) 1)
        = resolve (typedefTable opencl_h) 4 (.name a) := by decide
  have h32 : ∀ a ∈ derivedFrom opencl_h "cl_uint",
      resolve (typedefTable opencl_h) 4 (.name a) = some (.name "uint32_t") := by decide
  have h64 : ∀ a ∈ derivedFrom opencl_h "cl_ulong",
      resolve (typedefTable opencl_h) 4 (.name a) = some (.name "uint64_t") := by decide
  refine ⟨by decide, by decide, by decide, ?_, by decide, by decide, by decide, ?_, ?_⟩
  · intro fuel hfuel a ha
    obtain ⟨hsome, hfix⟩ := hend a ha
    cases hr : resolve (typedefTable opencl_h) 4 (.name a) with
    | none => rw [hr] at hsome; cases hsome
    | some r =>
      rw [hr] at hfix
      exact ⟨r, resolve_mono _ 4 fuel _ r hfuel hr, by simpa using hfix⟩
  · intro fuel hfuel a ha
    have hres := h32 a ha
    refine ⟨resolve_mono _ 4 fuel _ _ hfuel hres, ?_⟩
    unfold scalarOf resolveIn
    rw [resolve_mono _ 4 _ _ _ hlen hres]
    rfl
  · intro fuel hfuel a ha
    have hres := h64 a ha
    refine ⟨resolve_mono _ 4 fuel _ _ hfuel hres, ?_⟩
    unfold scalarOf resolveIn
    rw [resolve_mono _ 4 _ _ _ hlen hres]
    rfl

/-- Witness of C8: `cl_device_type`, three aliases away from `uint64_t`,
resolved with fuel 7 on the 32-bit platform. -/
theorem alias_resolution_witness :
    4 ≤ 7 ∧ "cl_device_type" ∈ derivedFrom opencl_h "cl_ulong" ∧
    resolve (typedefTable opencl_h) 7 (.name "cl_device_type") = some (.name "uint64_t") ∧
    scalarOf platform32 opencl_h (.name "cl_device_type") = some (.integer false 64) :=
  ⟨by decide, by decide,
    (alias_resolution_well_founded platform32).2.2.2.2.2.2.2.2 7 (by decide)
      "cl_device_type" (by decide)⟩

/-! ## Layout -/

/-- An offset that is a multiple of the alignment needs no padding. -/
theorem alignUp_of_dvd (off a : Nat) (h : a ∣ off) : alignUp off a = off := by
  unfold alignUp
  rw [if_pos (Nat.mod_eq_zero_of_dvd h)]

/-- C9: under natural alignment none of the four structs has padding: its
size is the sum of its member sizes and its members lie back to back.
`cl_image_format` is 8 bytes with members at 0 and 4; when `size_t` is as
wide as a pointer, of `p` bytes, `cudaPitchedPtr` is `4 * p` bytes with
members at `0, p, 2p, 3p` and `cudaExtent` is `3 * p` bytes with members at
`0, p, 2p`; with `int` and enumerations of 4 bytes `cudaChannelFormatDesc`
is 20 bytes with members at 0, 4, 8, 12 and 16. -/
theorem natural_layout_no_padding (P : Platform) :
    (fieldSizes P opencl_h "_cl_image_format" = [4, 4] ∧
      fieldOffsets P opencl_h "_cl_image_format" = [0, 4] ∧
      sizeofStruct P opencl_h "_cl_image_format" = 8 ∧
      sizeofStruct P opencl_h "_cl_image_format"
        = (fieldSizes P opencl_h "_cl_image_format").sum) ∧
    (P.sizeBytes = P.ptrBytes →
      fieldSizes P cuda_runtime_h "cudaPitchedPtr"
        = [P.ptrBytes, P.ptrBytes, P.ptrBytes, P.ptrBytes] ∧
      fieldOffsets P cuda_runtime_h "cudaPitchedPtr"
        = [0, P.ptrBytes, 2 * P.ptrBytes, 3 * P.ptrBytes] ∧
      sizeofStruct P cuda_runtime_h "cudaPitchedPtr" = 4 * P.ptrBytes ∧
      fieldSizes P cuda_runtime_h "cudaExtent" = [P.ptrBytes, P.ptrBytes, P.ptrBytes] ∧
      fieldOffsets P cuda_runtime_h "cudaExtent" = [0, P.ptrBytes, 2 * P.ptrBytes] ∧
      sizeofStruct P cuda_runtime_h "cudaExtent" = 3 * P.ptrBytes ∧
      sizeofStruct P cuda_runtime_h "cudaPitchedPtr"
        = (fieldSizes P cuda_runtime_h "cudaPitchedPtr").sum ∧
      sizeofStruct P cuda_runtime_h "cudaExtent"
        = (fieldSizes P cuda_runtime_h "cudaExtent").sum) ∧
    (P.intBytes = 4 → P.enumBytes = 4 →
      fieldSizes P cuda_runtime_h "cudaChannelFormatDesc" = [4, 4, 4, 4, 4] ∧
      fieldOffsets P cuda_runtime_h "cudaChannelFormatDesc" = [0, 4, 8, 12, 16] ∧
      sizeofStruct P cuda_runtime_h "cudaChannelFormatDesc" = 20 ∧
      sizeofStruct P cuda_runtime_h "cudaChannelFormatDesc"
        = (fieldSizes P cuda_runtime_h "cudaChannelFormatDesc").sum) := by
  refine ⟨?_, ?_, ?_⟩
  · have hs : fieldSizes P opencl_h "_cl_image_format" = [4, 4] := rfl
    refine ⟨hs, ?_, ?_, ?_⟩
    · unfold fieldOffsets
      rw [hs]
      rfl
    · unfold sizeofStruct
      rw [hs]
      rfl
    · unfold sizeofStruct
      rw [hs]
      rfl
  · intro hsz
    have hp : fieldSizes P cuda_runtime_h "cudaPitchedPtr"
        = [P.ptrBytes, P.ptrBytes, P.ptrBytes, P.ptrBytes] := by
      have : fieldSizes P cuda_runtime_h "cudaPitchedPtr"
          = [8 * P.ptrBytes / 8, 8 * P.sizeBytes / 8, 8 * P.sizeBytes / 8,
             8 * P.sizeBytes / 8] := rfl
      rw [this, hsz]
      simp
    have he : fieldSizes P cuda_runtime_h "cudaExtent"
        = [P.ptrBytes, P.ptrBytes, P.ptrBytes] := by
      have : fieldSizes P cuda_runtime_h "cudaExtent"
          = [8 * P.sizeBytes / 8, 8 * P.sizeBytes / 8, 8 * P.sizeBytes / 8] := rfl
      rw [this, hsz]
      simp
    generalize P.ptrBytes = p at hp he
    have a0 : alignUp 0 p = 0 := alignUp_of_dvd 0 p (dvd_zero p)
    have a1 : alignUp (0 + p) p = p := by
      rw [alignUp_of_dvd (0 + p) p ⟨1, by ring⟩]; ring
    have a2 : alignUp (p + p) p = 2 * p := by
      rw [alignUp_of_dvd (p + p) p ⟨2, by ring⟩]; ring
    have a3 : alignUp (2 * p + p) p = 3 * p := by
      rw [alignUp_of_dvd (2 * p + p) p ⟨3, by ring⟩]; ring
    have a4 : alignUp (3 * p + p) p = 4 * p := by
      rw [alignUp_of_dvd (3 * p + p) p ⟨4, by ring⟩]; ring
    have sp : sizeofStruct P cuda_runtime_h "cudaPitchedPtr" = 4 * p := by
      unfold sizeofStruct
      rw [hp]
      simp only [structSize, endFrom, a0, a1, a2, a3, List.foldl_cons, List.foldl_nil,
        Nat.zero_max, max_self, a4]
    have se : sizeofStruct P cuda_runtime_h "cudaExtent" = 3 * p := by
      unfold sizeofStruct
      rw [he]
      simp only [structSize, endFrom, a0, a1, a2, List.foldl_cons, List.foldl_nil,
        Nat.zero_max, max_self, a3]
    refine ⟨hp, ?_, sp, he, ?_, se, ?_, ?_⟩
    · unfold fieldOffsets
      rw [hp]
      simp only [offsetsFrom, a0, a1, a2, a3]
    · unfold fieldOffsets
      rw [he]
      simp only [offsetsFrom, a0, a1, a2]
    · rw [sp, hp]
      simp only [List.sum_cons, List.sum_nil]
      omega
    · rw [se, he]
      simp only [List.sum_cons, List.sum_nil]
      omega
  · intro hint henum
    have hs : fieldSizes P cuda_runtime_h "cudaChannelFormatDesc" = [4, 4, 4, 4, 4] := by
      have : fieldSizes P cuda_runtime_h "cudaChannelFormatDesc"
          = [8 * P.intBytes / 8, 8 * P.intBytes / 8, 8 * P.intBytes / 8,
             8 * P.intBytes / 8, 8 * P.enumBytes / 8] := rfl
      rw [this, hint, henum]
    refine ⟨hs, ?_, ?_, ?_⟩
    · unfold fieldOffsets
      rw [hs]
      rfl
    · unfold sizeofStruct
      rw [hs]
      rfl
    · unfold sizeofStruct
      rw [hs]
      rfl

/-- Witness of C9 on the 64-bit platform: `cudaPitchedPtr` is 32 bytes,
`cudaExtent` 24 bytes and `cudaChannelFormatDesc` 20 bytes. -/
theorem natural_layout_witness :
    platform64.sizeBytes = platform64.ptrBytes ∧
    platform64.intBytes = 4 ∧ platform64.enumBytes = 4 ∧
    fieldOffsets platform64 cuda_runtime_h "cudaPitchedPtr" = [0, 8, 16, 24] ∧
    sizeofStruct platform64 cuda_runtime_h "cudaPitchedPtr" = 32 ∧
    sizeofStruct platform64 cuda_runtime_h "cudaExtent" = 24 ∧
    sizeofStruct platform64 cuda_runtime_h "cudaChannelFormatDesc" = 20 :=
  ⟨rfl, rfl, rfl,
    ((natural_layout_no_padding platform64).2.1 rfl).2.1,
    ((natural_layout_no_padding platform64).2.1 rfl).2.2.1,
    ((natural_layout_no_padding platform64).2.1 rfl).2.2.2.2.2.1,
    ((natural_layout_no_padding platform64).2.2 rfl rfl).2.2.1⟩

end R3dHeaders
